import Mathlib

/-!
Shallow embedding of Clementine's CD-audio song loader
(src/devices/cddasongloader.cpp) for checking the natural-language
specification of the disc-scanning state machine.

The `LoadSongsFromCdda` worker is modelled as a pure function from a scan
input (the outcome of the GStreamer element setup, the queried track count,
the time-ordered sequence of bus messages, and the sequence of values the
`may_load_` flag is observed to hold at successive loop-boundary checks) to
a scan result (the ordered list of emitted Qt signals plus the final local
state of the loop).  Undefined behaviour reachable in the C++ (an
out-of-bounds QList index, a tripped Q_ASSERT) is made explicit as a
`crash` outcome that aborts the loop.
-/

/-- File types used by the loader.  Modelled from the spec: the Song entity
(core/song.h) is outside the provided sources; only the two constructor
values the loader mentions are modelled. -/
inductive SongFileType where
  | typeUnknown
  | typeCdda
  deriving DecidableEq

/-- Track descriptor.  Modelled from the spec: the Song entity
(core/song.h) is outside the provided sources.  The fields are exactly the
ones cddasongloader.cpp reads or writes; per the spec a freshly
constructed track has zero duration, and the remaining defaults (see
`defaultSong`) are never observed by the loader before being set. -/
structure Song where
  id : Int
  valid : Bool
  filetype : SongFileType
  url : String
  title : String
  track : Int
  artist : String
  album : String
  albumartist : String
  genre : String
  length_nanosec : Int
  year : Int
  deriving DecidableEq

/-- Modelled from the spec: default-constructed Song ("placeholder titles,
zero duration"); the spec fixes only the zero duration, the other defaults
are immaterial to the loader, which overwrites every field it emits. -/
def defaultSong : Song :=
  { id := 0, valid := false, filetype := SongFileType.typeUnknown, url := "",
    title := "", track := 0, artist := "", album := "", albumartist := "",
    genre := "", length_nanosec := 0, year := 0 }

/-- Modelled from the spec: CddaDevice::TrackStrToUrl (cddadevice.h, outside
the provided sources) turns the cdda track string into a QUrl; the claims
never inspect URL structure, so the string is kept as-is. -/
def trackStrToUrl (s : String) : String := s

/-- CddaSongLoader::GetUrlFromTrack (cddasongloader.cpp lines 43-51).
`urlPath` is `none` when `url_` is empty, otherwise `some` of the path. -/
def getUrlFromTrack (urlPath : Option String) (track_number : Int) : String :=
  match urlPath with
  | none => trackStrToUrl ("cdda://" ++ toString track_number)
  | some p => trackStrToUrl ("cdda://" ++ p ++ "/" ++ toString track_number)

/-- A GStreamer tag list as read by ParseSongTags: each getter either
fails (`none`) or yields a value.  `track_number` is the guint
GST_TAG_TRACK_NUMBER, `duration` the guint64 GST_TAG_DURATION,
`musicbrainz_discid` the GST_TAG_CDDA_MUSICBRAINZ_DISCID string. -/
structure GstTagList where
  track_number : Option Nat
  album : Option String
  albumartist : Option String
  genre : Option String
  artist : Option String
  title : Option String
  duration : Option Nat
  musicbrainz_discid : Option String
  deriving DecidableEq

/-- Outcome of CddaSongLoader::ParseSongTags (lines 63-132):
`noTrackNumber` is the logged-failure early return (lines 76-79, returns
false without touching any song); `assertFail` marks the Q_ASSERT trips of
lines 81-82 (a zero or out-of-range track number; in release builds the
subsequent `songs[track_number - 1]` access is out of bounds instead);
`parsed` carries the updated song list and the returned
`has_loaded_tags`. -/
inductive ParseOutcome where
  | noTrackNumber
  | assertFail
  | parsed (songs : List Song) (hasLoadedTags : Bool)
  deriving DecidableEq

/-- CddaSongLoader::ParseSongTags (cddasongloader.cpp lines 63-132).
Each present field is copied into the song at index `track_number - 1` and
sets `has_loaded_tags`; the trailing setters (track, id, filetype, valid,
url) run unconditionally. -/
def parseSongTags (urlPath : Option String) (songs : List Song)
    (tags : GstTagList) : ParseOutcome :=
  match tags.track_number with
  | none => ParseOutcome.noTrackNumber
  | some tn =>
    if tn = 0 ∨ songs.length < tn then ParseOutcome.assertFail
    else
      let s0 := songs.getD (tn - 1) defaultSong
      let p1 := match tags.album with
        | some v => ({ s0 with album := v }, true)
        | none => (s0, false)
      let p2 := match tags.albumartist with
        | some v => ({ p1.1 with albumartist := v }, true)
        | none => p1
      let p3 := match tags.genre with
        | some v => ({ p2.1 with genre := v }, true)
        | none => p2
      let p4 := match tags.artist with
        | some v => ({ p3.1 with artist := v }, true)
        | none => p3
      let p5 := match tags.title with
        | some v => ({ p4.1 with title := v }, true)
        | none => p4
      let p6 := match tags.duration with
        | some d => ({ p5.1 with length_nanosec := (d : Int) }, true)
        | none => p5
      let s := { p6.1 with
        track := (tn : Int), id := (tn : Int),
        filetype := SongFileType.typeCdda, valid := true,
        url := getUrlFromTrack urlPath (tn : Int) }
      ParseOutcome.parsed (songs.set (tn - 1) s) p6.2

/-- One GstTocEntry: `some (start, stop)` when
gst_toc_entry_get_start_stop_times succeeds, `none` when it fails (the
local `duration` then stays 0, lines 218-221). -/
abbrev TocEntry := Option (Int × Int)

/-- Duration computed for one TOC entry (lines 218-221): `stop - start`
stored into a quint64 local, hence reduced modulo 2^64. -/
def tocEntryDuration (e : TocEntry) : Int :=
  match e with
  | some se => (se.2 - se.1) % (2 ^ 64 : Int)
  | none => 0

/-- The duration-writing loop of lines 215-223: entry k's duration is
written into `initial_song_list[k]` for EVERY entry of the TOC.  The
result is `none` when some index falls outside the song list (the QList
index operator is then out of bounds: an assertion failure in debug
builds, undefined behaviour in release builds). -/
def updateDurations : List Song → List TocEntry → Option (List Song)
  | songs, [] => some songs
  | [], _ :: _ => none
  | s :: srest, e :: erest =>
    match updateDurations srest erest with
    | none => none
    | some r => some ({ s with length_nanosec := tocEntryDuration e } :: r)

/-- A message delivered by gst_bus_timed_pop_filtered: a TOC message
(whose gst_message_parse_toc may yield a null toc, hence the Option) or a
TAG message.  `position` packages the result of the
gst_element_query_position call of line 252 made while handling that tag
message. -/
inductive GstMessage where
  | toc (entries : Option (List TocEntry))
  | tag (tags : GstTagList) (position : Int)
  deriving DecidableEq

/-- The Qt signals the loader emits, in emission order. -/
inductive Emission where
  | songsLoaded (songs : List Song)
  | songsDurationLoaded (songs : List Song)
  | songsMetadataLoaded (songs : List Song)
  | musicBrainzDiscIdLoaded (discid : String)
  deriving DecidableEq

/-- Per-scan constants: the device path and the queried track count. -/
structure ScanCfg where
  urlPath : Option String
  numTracks : Int
  deriving DecidableEq

/-- The mutable locals of the LoadSongsFromCdda event loop:
the two bits of `msg_filter`, `initial_song_list`, `tagged_song_list`,
`musicbrainz_discid` and `loaded_cd_tags`. -/
structure LoopState where
  tocFilter : Bool
  tagFilter : Bool
  initialSongs : List Song
  taggedSongs : List Song
  discid : String
  loadedCdTags : Bool
  deriving DecidableEq

/-- Result of handling one popped message: `crash` for the
undefined-behaviour paths (out-of-bounds TOC write, tripped Q_ASSERT),
otherwise the new state plus the signals emitted during the step. -/
inductive StepResult where
  | crash
  | step (st : LoopState) (ems : List Emission)
  deriving DecidableEq

/-- Lines 251-263: query the current track position, advance it by one and
either seek to the next track (no modelled state change; the solicited
messages are part of the input sequence) or, when the last track was just
processed, drop GST_MESSAGE_TAG from the filter. -/
def advanceTrack (cfg : ScanCfg) (st : LoopState) (position : Int) : LoopState :=
  if position + 1 < cfg.numTracks then st else { st with tagFilter := false }

/-- Handling of one popped message (lines 208-264).  A TOC message is
accepted when the entry list is non-null and at least as long as the song
list (line 214); acceptance writes all entry durations, emits
SongsDurationLoaded and clears the TOC filter bit (lines 215-226).  A TAG
message first latches the MusicBrainz disc id while the current one is
empty (lines 237-241), then runs ParseSongTags, or-accumulates its result
into `loaded_cd_tags` (line 248) and advances the track position
(lines 251-263). -/
def processMessage (cfg : ScanCfg) (st : LoopState) (m : GstMessage) : StepResult :=
  match m with
  | GstMessage.toc none => StepResult.step st []
  | GstMessage.toc (some entries) =>
    if entries ≠ [] ∧ st.initialSongs.length ≤ entries.length then
      match updateDurations st.initialSongs entries with
      | none => StepResult.crash
      | some songs2 =>
        StepResult.step { st with initialSongs := songs2, tocFilter := false }
          [Emission.songsDurationLoaded songs2]
    else StepResult.step st []
  | GstMessage.tag tags position =>
    let discid2 :=
      if st.discid = "" then
        match tags.musicbrainz_discid with
        | some s => s
        | none => st.discid
      else st.discid
    match parseSongTags cfg.urlPath st.taggedSongs tags with
    | ParseOutcome.assertFail => StepResult.crash
    | ParseOutcome.noTrackNumber =>
      StepResult.step (advanceTrack cfg { st with discid := discid2 } position) []
    | ParseOutcome.parsed songs2 h =>
      StepResult.step
        (advanceTrack cfg
          { st with
            discid := discid2, taggedSongs := songs2,
            loadedCdTags := st.loadedCdTags || h } position) []

/-- Whether a message passes the current `msg_filter` of
gst_bus_timed_pop_filtered. -/
def messageMatches (tocF tagF : Bool) : GstMessage → Bool
  | GstMessage.toc _ => tocF
  | GstMessage.tag _ _ => tagF

/-- gst_bus_timed_pop_filtered over the remaining bus messages: skips (and
discards) messages not matching the filter, returns the first match and
the messages after it, or `none` on timeout with no matching message. -/
def popFiltered (tocF tagF : Bool) : List GstMessage → Option (GstMessage × List GstMessage)
  | [] => none
  | m :: rest =>
    if messageMatches tocF tagF m then some (m, rest)
    else popFiltered tocF tagF rest

/-- Result of the event loop: the signals emitted inside the loop, the
final loop state, whether an undefined-behaviour path was reached, and the
number of gst_bus_timed_pop_filtered calls (blocking waits) performed. -/
structure LoopResult where
  emissions : List Emission
  state : LoopState
  crashed : Bool
  pops : Nat
  deriving DecidableEq

/-- The while loop of lines 205-266.  `b` is the number of remaining
loop-boundary checks at which the concurrently mutated `may_load_` flag is
observed to be true (once cleared it never becomes true again, so the
true observations all come before the false ones); a check beyond the
budget observes false
and exits the loop.  Each iteration re-checks `msg_filter` and performs
one blocking pop; a null pop (timeout or drained bus) exits the loop. -/
def scanLoop (cfg : ScanCfg) : Nat → LoopState → List GstMessage → LoopResult
  | 0, st, _ => ⟨[], st, false, 0⟩
  | b + 1, st, msgs =>
    if st.tocFilter = false ∧ st.tagFilter = false then ⟨[], st, false, 0⟩
    else
      match popFiltered st.tocFilter st.tagFilter msgs with
      | none => ⟨[], st, false, 1⟩
      | some mr =>
        match processMessage cfg st mr.1 with
        | StepResult.crash => ⟨[], st, true, 1⟩
        | StepResult.step st2 ems =>
          let r := scanLoop cfg b st2 mr.2
          ⟨ems ++ r.emissions, r.state, r.crashed, r.pops + 1⟩

/-- One freshly initialised song of the initial track list
(lines 176-184). -/
def mkInitialSong (urlPath : Option String) (track_number : Nat) : Song :=
  { defaultSong with
    id := (track_number : Int), valid := true,
    filetype := SongFileType.typeCdda,
    url := getUrlFromTrack urlPath (track_number : Int),
    title := "Track " ++ toString track_number,
    track := (track_number : Int) }

/-- The initial track list built for track numbers 1..num_tracks
(lines 174-185); empty when the queried count is non-positive. -/
def initialSongList (urlPath : Option String) (numTracks : Int) : List Song :=
  (List.range numTracks.toNat).map (fun k => mkInitialSong urlPath (k + 1))

/-- Input of one whole LoadSongsFromCdda run: whether element creation,
the READY/PAUSED state changes and the track-count query succeed, the
queried count, the bus messages in delivery order, the number of
loop-boundary checks (the line-135 guard included) that observe
`may_load_` as true, and the indeterminate value the uninitialized local
`loaded_cd_tags` (line 204) happens to hold when first read. -/
structure ScanInput where
  urlPath : Option String
  elementOk : Bool
  stateOk : Bool
  trackCountOk : Bool
  numTracks : Int
  messages : List GstMessage
  mayLoadTrueChecks : Nat
  loadedCdTagsInit : Bool
  deriving DecidableEq

/-- Result of one whole run: the ordered emitted signals, the number of
blocking waits, whether undefined behaviour was reached, and the final
values of the loop locals. -/
structure ScanResult where
  emissions : List Emission
  pops : Nat
  crashed : Bool
  discid : String
  taggedSongs : List Song
  loadedCdTags : Bool
  deriving DecidableEq

/-- The post-loop emissions of lines 267-270: SongsMetadataLoaded when
`loaded_cd_tags` ended true, then MusicBrainzDiscIdLoaded when the disc id
is non-empty.  Nothing is emitted past a crash. -/
def postEmissions (r : LoopResult) : List Emission :=
  if r.crashed then []
  else
    (if r.state.loadedCdTags then
      [Emission.songsMetadataLoaded r.state.taggedSongs] else [])
    ++ (if r.state.discid ≠ "" then
      [Emission.musicBrainzDiscIdLoaded r.state.discid] else [])

/-- CddaSongLoader::LoadSongsFromCdda (lines 134-276).  The early returns
of lines 135, 142-144, 156-163 and 168-172 emit nothing; otherwise the
initial track list is emitted (line 186), the event loop runs with
`tagged_song_list` starting as a copy of the initial list (line 188,
detached on first write by Qt copy-on-write) and `loaded_cd_tags` starting
at its indeterminate value, and the post-loop emissions follow. -/
def scanRun (inp : ScanInput) : ScanResult :=
  if inp.mayLoadTrueChecks = 0 ∨ inp.elementOk = false ∨ inp.stateOk = false
      ∨ inp.trackCountOk = false then
    ⟨[], 0, false, "", [], false⟩
  else
    let cfg : ScanCfg := ⟨inp.urlPath, inp.numTracks⟩
    let init := initialSongList inp.urlPath inp.numTracks
    let st0 : LoopState := ⟨true, true, init, init, "", inp.loadedCdTagsInit⟩
    let r := scanLoop cfg (inp.mayLoadTrueChecks - 1) st0 inp.messages
    ⟨Emission.songsLoaded init :: (r.emissions ++ postEmissions r), r.pops,
      r.crashed, r.state.discid, r.state.taggedSongs, r.state.loadedCdTags⟩

/-- Modelled from the spec: kNsecPerMsec (core/timeconstants.h, outside
the provided sources), nanoseconds per millisecond. -/
def kNsecPerMsec : Int := 1000000

/-- Modelled from the spec: one MusicBrainzClient::Result
(musicbrainzclient.h, outside the provided sources) carries a title, a
duration in milliseconds and a year. -/
structure MbResult where
  title : String
  duration_msec : Int
  year : Int
  deriving DecidableEq

/-- One song built for a MusicBrainz result (lines 298-313), given its
1-based position in the result list. -/
def mbSong (urlPath : Option String) (artist album : String) (tn : Nat)
    (ret : MbResult) : Song :=
  { defaultSong with
    artist := artist, album := album, title := ret.title,
    length_nanosec := ret.duration_msec * kNsecPerMsec,
    track := (tn : Int), year := ret.year, id := (tn : Int),
    filetype := SongFileType.typeCdda, valid := true,
    url := getUrlFromTrack urlPath (tn : Int) }

/-- The song-building loop of lines 297-313, with `tn` the track number
given to the next result. -/
def mbSongs (urlPath : Option String) (artist album : String) :
    Nat → List MbResult → List Song
  | _, [] => []
  | tn, r :: rs =>
    mbSong urlPath artist album tn r :: mbSongs urlPath artist album (tn + 1) rs

/-- CddaSongLoader::AudioCDTagsLoaded (lines 289-315): an empty result
list returns without emitting (line 296); otherwise one song per result is
built, numbered from 1 in result order, and the list is emitted once as
SongsMetadataLoaded. -/
def audioCDTagsLoaded (urlPath : Option String) (artist album : String)
    (results : List MbResult) : List Emission :=
  if results = [] then []
  else [Emission.songsMetadataLoaded (mbSongs urlPath artist album 1 results)]

/-- Classifier for the initial-track-list signal. -/
def isInitialEmission : Emission → Bool
  | Emission.songsLoaded _ => true
  | _ => false

/-- Classifier for the duration-enriched-list signal. -/
def isDurationEmission : Emission → Bool
  | Emission.songsDurationLoaded _ => true
  | _ => false

/-- Classifier for the tag-enriched-list signal. -/
def isMetadataEmission : Emission → Bool
  | Emission.songsMetadataLoaded _ => true
  | _ => false

/-- Scan input for a 1-track disc whose TOC message carries two entries:
the acceptance test of line 214 passes (1 ≤ 2) and the write loop of
lines 215-223 then indexes past the end of the one-element list. -/
def c1SupersetTocInput : ScanInput :=
  ⟨none, true, true, true, 1,
    [GstMessage.toc (some [some (0, 100), some (100, 200)])], 5, false⟩

/-- Scan input for a 1-track disc receiving one tag event whose
GST_TAG_TRACK_NUMBER field is 0: the Q_ASSERT of line 81 trips. -/
def c2ZeroTrackInput : ScanInput :=
  ⟨none, true, true, true, 1,
    [GstMessage.tag ⟨some 0, none, none, none, none, none, none, none⟩ 0], 5, false⟩

/-- Scan input for a 1-track disc on which no tag event ever arrives and
the uninitialized `loaded_cd_tags` local happens to start true. -/
def c3NoTagInput : ScanInput :=
  ⟨none, true, true, true, 1, [], 5, true⟩

/-- Scan input for a 2-track disc whose TOC message carries three
entries. -/
def c4SupersetTocInput : ScanInput :=
  ⟨none, true, true, true, 2,
    [GstMessage.toc (some [some (0, 10), some (10, 20), some (20, 30)])], 5, false⟩

/-- First tag event of the C7 counterexample: it carries a
disc-identifier field whose value is the empty string. -/
def c7EmptyIdTags : GstTagList :=
  ⟨some 1, none, none, none, none, none, none, some ("")⟩

/-- Second tag event of the C7 counterexample: a non-empty
disc-identifier field. -/
def c7LaterIdTags : GstTagList :=
  ⟨some 1, none, none, none, none, none, none, some ("X")⟩

/-- Scan input in which the first tag event carries an empty-string disc
identifier and a later one carries "X". -/
def c7OverwriteInput : ScanInput :=
  ⟨none, true, true, true, 2,
    [GstMessage.tag c7EmptyIdTags 0, GstMessage.tag c7LaterIdTags 0], 5, false⟩

/-- A 3-track scan with no bus messages, used to witness the initial
track list claim. -/
def c5WitnessInput : ScanInput :=
  ⟨some ("dev"), true, true, true, 3, [], 4, false⟩

/-- A tag list carrying only a title and track number 1. -/
def titleOnlyTags : GstTagList :=
  ⟨some 1, none, none, none, none, some ("T"), none, none⟩

/-- A 1-track scan delivering a well-formed TOC message followed by one
tag message, so that all three signal kinds are emitted. -/
def c6OrderInput : ScanInput :=
  ⟨none, true, true, true, 1,
    [GstMessage.toc (some [some (0, 100)]), GstMessage.tag titleOnlyTags 0], 5, false⟩

/-- A loop state whose disc identifier is already non-empty. -/
def c7StableState : LoopState :=
  ⟨true, true, [], [], "d", false⟩

/-- A 1-track scan whose only tag event carries a non-empty disc
identifier. -/
def c7WitnessInput : ScanInput :=
  ⟨none, true, true, true, 1,
    [GstMessage.tag ⟨some 1, none, none, none, none, none, none, some ("Z")⟩ 0], 5, false⟩

/-- A 1-track scan in which `may_load_` is observed true at the initial
check and at the first loop check only (the flag is cleared while the
first tag message is being handled): the harvested metadata must still be
emitted after the loop exits. -/
def c10WitnessInput : ScanInput :=
  ⟨none, true, true, true, 1, [GstMessage.tag titleOnlyTags 0], 2, false⟩

theorem scanLoop_pops_le (cfg : ScanCfg) (b : Nat) :
    ∀ (st : LoopState) (msgs : List GstMessage),
      (scanLoop cfg b st msgs).pops ≤ b := by
  induction b with
  | zero => intro st msgs; simp [scanLoop]
  | succ b ih =>
    intro st msgs
    simp only [scanLoop]
    split
    · simp
    · split
      · simp
      · split
        · simp
        · simpa using Nat.succ_le_succ (ih _ _)

theorem processMessage_step_ems (cfg : ScanCfg) (st : LoopState) (m : GstMessage)
    (st2 : LoopState) (ems : List Emission)
    (h : processMessage cfg st m = StepResult.step st2 ems) :
    ems = [] ∨ ∃ l, ems = [Emission.songsDurationLoaded l] := by
  cases m with
  | toc entries =>
    cases entries with
    | none =>
      simp only [processMessage, StepResult.step.injEq] at h
      exact Or.inl h.2.symm
    | some es =>
      simp only [processMessage] at h
      split at h
      · split at h
        · exact absurd h (by simp)
        · simp only [StepResult.step.injEq] at h
          exact Or.inr ⟨_, h.2.symm⟩
      · simp only [StepResult.step.injEq] at h
        exact Or.inl h.2.symm
  | tag tags pos =>
    simp only [processMessage] at h
    split at h
    · exact absurd h (by simp)
    · simp only [StepResult.step.injEq] at h
      exact Or.inl h.2.symm
    · simp only [StepResult.step.injEq] at h
      exact Or.inl h.2.symm

theorem scanLoop_ems_dur (cfg : ScanCfg) (b : Nat) :
    ∀ (st : LoopState) (msgs : List GstMessage) (e : Emission),
      e ∈ (scanLoop cfg b st msgs).emissions → isDurationEmission e = true := by
  induction b with
  | zero => intro st msgs e he; simp [scanLoop] at he
  | succ b ih =>
    intro st msgs e he
    simp only [scanLoop] at he
    split at he
    · simp at he
    · cases hp : popFiltered st.tocFilter st.tagFilter msgs with
      | none => rw [hp] at he; simp at he
      | some mr =>
        rw [hp] at he
        dsimp only at he
        cases hm : processMessage cfg st mr.1 with
        | crash => rw [hm] at he; simp at he
        | step st2 ems =>
          rw [hm] at he
          simp only [List.mem_append] at he
          rcases he with he | he
          · rcases processMessage_step_ems cfg st mr.1 st2 ems hm with h0 | ⟨l, hl⟩
            · rw [h0] at he; simp at he
            · rw [hl] at he
              simp only [List.mem_singleton] at he
              rw [he]; rfl
          · exact ih st2 mr.2 e he

theorem popFiltered_mem (tocF tagF : Bool) :
    ∀ (msgs : List GstMessage) (mr : GstMessage × List GstMessage),
      popFiltered tocF tagF msgs = some mr →
      mr.1 ∈ msgs ∧ ∀ x ∈ mr.2, x ∈ msgs := by
  intro msgs
  induction msgs with
  | nil => intro mr h; simp [popFiltered] at h
  | cons m rest ih =>
    intro mr h
    simp only [popFiltered] at h
    split at h
    · rcases h with ⟨rfl⟩
      exact ⟨List.mem_cons_self m rest, fun x hx => List.mem_cons_of_mem m hx⟩
    · rcases ih mr h with ⟨h1, h2⟩
      exact ⟨List.mem_cons_of_mem m h1, fun x hx => List.mem_cons_of_mem m (h2 x hx)⟩

theorem advanceTrack_discid (cfg : ScanCfg) (st : LoopState) (p : Int) :
    (advanceTrack cfg st p).discid = st.discid := by
  unfold advanceTrack
  split <;> rfl

theorem advanceTrack_initialSongs (cfg : ScanCfg) (st : LoopState) (p : Int) :
    (advanceTrack cfg st p).initialSongs = st.initialSongs := by
  unfold advanceTrack
  split <;> rfl

theorem advanceTrack_taggedSongs (cfg : ScanCfg) (st : LoopState) (p : Int) :
    (advanceTrack cfg st p).taggedSongs = st.taggedSongs := by
  unfold advanceTrack
  split <;> rfl

theorem advanceTrack_loadedCdTags (cfg : ScanCfg) (st : LoopState) (p : Int) :
    (advanceTrack cfg st p).loadedCdTags = st.loadedCdTags := by
  unfold advanceTrack
  split <;> rfl

theorem processMessage_discid_stable (cfg : ScanCfg) (st : LoopState)
    (m : GstMessage) (st2 : LoopState) (ems : List Emission)
    (hne : st.discid ≠ "") (h : processMessage cfg st m = StepResult.step st2 ems) :
    st2.discid = st.discid := by
  cases m with
  | toc entries =>
    cases entries with
    | none =>
      simp only [processMessage, StepResult.step.injEq] at h
      rw [← h.1]
    | some es =>
      simp only [processMessage] at h
      split at h
      · split at h
        · exact absurd h (by simp)
        · simp only [StepResult.step.injEq] at h
          rw [← h.1]
      · simp only [StepResult.step.injEq] at h
        rw [← h.1]
  | tag tags pos =>
    simp only [processMessage, if_neg hne] at h
    split at h
    · exact absurd h (by simp)
    · simp only [StepResult.step.injEq] at h
      rw [← h.1, advanceTrack_discid]
    · simp only [StepResult.step.injEq] at h
      rw [← h.1, advanceTrack_discid]

theorem scanLoop_discid_stable (cfg : ScanCfg) (b : Nat) :
    ∀ (st : LoopState) (msgs : List GstMessage), st.discid ≠ "" →
      (scanLoop cfg b st msgs).state.discid = st.discid := by
  induction b with
  | zero => intro st msgs _; rfl
  | succ b ih =>
    intro st msgs hne
    simp only [scanLoop]
    split
    · rfl
    · cases hp : popFiltered st.tocFilter st.tagFilter msgs with
      | none => rfl
      | some mr =>
        dsimp only
        cases hm : processMessage cfg st mr.1 with
        | crash => rfl
        | step st2 ems =>
          dsimp only
          have hd := processMessage_discid_stable cfg st mr.1 st2 ems hne hm
          rw [ih st2 mr.2 (by rw [hd]; exact hne), hd]

theorem processMessage_discid_origin (cfg : ScanCfg) (st : LoopState)
    (m : GstMessage) (st2 : LoopState) (ems : List Emission)
    (h : processMessage cfg st m = StepResult.step st2 ems) :
    st2.discid = st.discid ∨
      ∃ tags pos, m = GstMessage.tag tags pos ∧
        tags.musicbrainz_discid = some st2.discid := by
  cases m with
  | toc entries =>
    cases entries with
    | none =>
      simp only [processMessage, StepResult.step.injEq] at h
      exact Or.inl (by rw [← h.1])
    | some es =>
      simp only [processMessage] at h
      split at h
      · split at h
        · exact absurd h (by simp)
        · simp only [StepResult.step.injEq] at h
          exact Or.inl (by rw [← h.1])
      · simp only [StepResult.step.injEq] at h
        exact Or.inl (by rw [← h.1])
  | tag tags pos =>
    by_cases hd : st.discid = ""
    · cases hmb : tags.musicbrainz_discid with
      | none =>
        simp only [processMessage, if_pos hd, hmb] at h
        split at h
        · exact absurd h (by simp)
        · simp only [StepResult.step.injEq] at h
          exact Or.inl (by rw [← h.1, advanceTrack_discid])
        · simp only [StepResult.step.injEq] at h
          exact Or.inl (by rw [← h.1, advanceTrack_discid])
      | some s =>
        simp only [processMessage, if_pos hd, hmb] at h
        split at h
        · exact absurd h (by simp)
        · simp only [StepResult.step.injEq] at h
          refine Or.inr ⟨tags, pos, rfl, ?_⟩
          rw [← h.1, advanceTrack_discid, hmb]
        · simp only [StepResult.step.injEq] at h
          refine Or.inr ⟨tags, pos, rfl, ?_⟩
          rw [← h.1, advanceTrack_discid, hmb]
    · exact Or.inl (processMessage_discid_stable cfg st _ st2 ems hd h)

theorem scanLoop_discid_origin (cfg : ScanCfg) (b : Nat) :
    ∀ (st : LoopState) (msgs : List GstMessage),
      (scanLoop cfg b st msgs).state.discid = st.discid ∨
        ∃ tags pos, GstMessage.tag tags pos ∈ msgs ∧
          tags.musicbrainz_discid = some (scanLoop cfg b st msgs).state.discid := by
  induction b with
  | zero => intro st msgs; exact Or.inl rfl
  | succ b ih =>
    intro st msgs
    simp only [scanLoop]
    split
    · exact Or.inl rfl
    · cases hp : popFiltered st.tocFilter st.tagFilter msgs with
      | none => exact Or.inl rfl
      | some mr =>
        dsimp only
        cases hm : processMessage cfg st mr.1 with
        | crash => exact Or.inl rfl
        | step st2 ems =>
          dsimp only
          rcases popFiltered_mem st.tocFilter st.tagFilter msgs mr hp with ⟨hmem, hsub⟩
          rcases ih st2 mr.2 with hl | ⟨tags, pos, htin, hmb⟩
          · rcases processMessage_discid_origin cfg st mr.1 st2 ems hm with h2 | ⟨tags, pos, hmt, hmb⟩
            · exact Or.inl (by rw [hl, h2])
            · refine Or.inr ⟨tags, pos, ?_, ?_⟩
              · rw [← hmt]; exact hmem
              · rw [hl]; exact hmb
          · exact Or.inr ⟨tags, pos, hsub _ htin, hmb⟩

theorem postEmissions_not_dur_init (r : LoopResult) :
    ∀ e ∈ postEmissions r, isDurationEmission e = false ∧ isInitialEmission e = false := by
  intro e he
  unfold postEmissions at he
  split at he
  · simp at he
  · simp only [List.mem_append] at he
    rcases he with he | he
    · split at he
      · simp only [List.mem_singleton] at he
        rw [he]; exact ⟨rfl, rfl⟩
      · simp at he
    · split at he
      · simp only [List.mem_singleton] at he
        rw [he]; exact ⟨rfl, rfl⟩
      · simp at he

theorem scanRun_shape (inp : ScanInput) :
    (scanRun inp).emissions = [] ∨
    ∃ l le post, (scanRun inp).emissions = Emission.songsLoaded l :: (le ++ post) ∧
      (∀ e ∈ le, isDurationEmission e = true) ∧
      (∀ e ∈ post, isDurationEmission e = false ∧ isInitialEmission e = false) := by
  unfold scanRun
  split
  · exact Or.inl rfl
  · right
    refine ⟨_, _, _, rfl, ?_, ?_⟩
    · intro e he
      exact scanLoop_ems_dur _ _ _ _ e he
    · intro e he
      exact postEmissions_not_dur_init _ e he

/-- C1: the claim accepts any table-of-contents event with entry count at
least the track count N and asserts the duration-enriched list is then
emitted exactly once with duration stop-start per track.  On the code, a
TOC event with MORE entries than tracks passes the acceptance test of
line 214 but the write loop of lines 215-223 then indexes
`initial_song_list` out of bounds: the scan crashes (undefined behaviour)
and no duration-enriched list is emitted at all.  This theorem evaluates
the embedded code at the failing input (N = 1, two well-formed TOC
entries). -/
theorem c1_toc_superset_crashes :
    (scanRun c1SupersetTocInput).crashed = true ∧
      (scanRun c1SupersetTocInput).emissions.countP isDurationEmission = 0 := by
  exact ⟨rfl, rfl⟩

/-- C2 counterexample: a tag event whose track-number field is 0 does not
produce a logged failure with the loop continuing, as the claim states: it
trips the Q_ASSERT of line 81 (out-of-bounds access in release builds),
so the claim is false as stated. -/
theorem c2_zero_track_number_asserts :
    (scanRun c2ZeroTrackInput).crashed = true := by
  exact rfl

/-- C3: the claim states the tag-enriched track list signal is emitted if
and only if at least one tag event harvested a field, in particular that a
scan with no tag event emits no such signal.  The code reads the
uninitialized local `loaded_cd_tags` (declared line 204, never set to
false) at line 267; this theorem evaluates the embedded code on a scan
with an empty message sequence whose indeterminate initial value happens
to be true: SongsMetadataLoaded is emitted even though no tag event ever
arrived. -/
theorem c3_uninitialized_tag_flag_spurious_emit :
    c3NoTagInput.messages = [] ∧
      (scanRun c3NoTagInput).emissions.countP isMetadataEmission = 1 := by
  exact ⟨rfl, rfl⟩

/-- C4: the claim asserts the duration-update loop writes only indices
0..N-1 of the N-element track list.  The loop of lines 215-223 iterates
over ALL TOC entries; with N = 2 tracks and a 3-entry TOC (accepted,
since 2 ≤ 3) the third write is out of bounds: `updateDurations` reports
the out-of-range access and the scan crashes. -/
theorem c4_toc_out_of_bounds_write :
    updateDurations (initialSongList none 2)
        [some (0, 10), some (10, 20), some (20, 30)] = none ∧
      (scanRun c4SupersetTocInput).crashed = true := by
  exact ⟨rfl, rfl⟩

/-- C7 counterexample: the claim says the value of the FIRST tag event
carrying a disc-identifier field is kept and later occurrences leave it
unchanged.  In `c7OverwriteInput` the first tag event carries the
disc-identifier field with value "" ; the guard of line 237 only checks
that the current identifier is empty, so the second event's value "X"
overwrites it: the kept value is not the first event's value. -/
theorem c7_empty_discid_overwritten :
    (scanRun c7OverwriteInput).discid = "X" ∧
      c7EmptyIdTags.musicbrainz_discid = some ("") := by
  exact ⟨rfl, rfl⟩

/-- C9: if element creation fails, the READY/PAUSED state change fails, or
the track-count query fails, LoadSongsFromCdda logs and returns
(lines 142-144, 156-163, 168-172): no signal of any kind is emitted and no
undefined behaviour (the model's stand-in for an escaping fault) is
reached. -/
theorem c9_open_failure_no_signals (inp : ScanInput)
    (h : inp.elementOk = false ∨ inp.stateOk = false ∨ inp.trackCountOk = false) :
    (scanRun inp).emissions = [] ∧ (scanRun inp).crashed = false := by
  unfold scanRun
  rw [if_pos (Or.inr h)]
  exact ⟨rfl, rfl⟩

/-- Witness for C9 at a concrete input: element creation fails. -/
theorem c9_open_failure_no_signals_witness :
    (scanRun ⟨none, false, true, true, 3,
        [GstMessage.toc (some [some (0, 1), some (1, 2), some (2, 3)])], 5, false⟩).emissions = [] ∧
      (scanRun ⟨none, false, true, true, 3,
        [GstMessage.toc (some [some (0, 1), some (1, 2), some (2, 3)])], 5, false⟩).crashed = false :=
  c9_open_failure_no_signals _ (Or.inl rfl)

theorem initialSongList_length (urlPath : Option String) (n : Nat) :
    (initialSongList urlPath (n : Int)).length = n := by
  unfold initialSongList
  rw [Int.toNat_ofNat]
  simp

theorem initialSongList_getD (urlPath : Option String) (n i : Nat) (hi : i < n) :
    (initialSongList urlPath (n : Int)).getD i defaultSong = mkInitialSong urlPath (i + 1) := by
  unfold initialSongList
  rw [Int.toNat_ofNat, List.getD_eq_getD_get?, List.get?_map, List.get?_range hi]
  rfl

/-- C5: for a disc whose track-count query reports N tracks, the scan's
first emitted signal is the initial track list; that list has exactly N
entries and entry i (0-based) has track number i+1 (so the numbers are
1..N in ascending order), placeholder title "Track i+1" and zero
duration. -/
theorem c5_initial_track_list (inp : ScanInput) (n i : Nat)
    (h0 : inp.mayLoadTrueChecks ≠ 0) (h1 : inp.elementOk = true)
    (h2 : inp.stateOk = true) (h3 : inp.trackCountOk = true)
    (h4 : inp.numTracks = (n : Int)) (hi : i < n) :
    (scanRun inp).emissions.head? =
      some (Emission.songsLoaded (initialSongList inp.urlPath (n : Int))) ∧
    (initialSongList inp.urlPath (n : Int)).length = n ∧
    ((initialSongList inp.urlPath (n : Int)).getD i defaultSong).track = (i : Int) + 1 ∧
    ((initialSongList inp.urlPath (n : Int)).getD i defaultSong).title =
      "Track " ++ toString (i + 1) ∧
    ((initialSongList inp.urlPath (n : Int)).getD i defaultSong).length_nanosec = 0 := by
  refine ⟨?_, initialSongList_length _ _, ?_, ?_, ?_⟩
  · unfold scanRun
    rw [if_neg (by simp [h0, h1, h2, h3])]
    dsimp only
    rw [h4]
    rfl
  · rw [initialSongList_getD _ _ _ hi]
    show ((i + 1 : Nat) : Int) = (i : Int) + 1
    push_cast
    ring
  · rw [initialSongList_getD _ _ _ hi]
    rfl
  · rw [initialSongList_getD _ _ _ hi]
    rfl

/-- Witness for C5 on a concrete 3-track scan, checking entry index 1. -/
theorem c5_initial_track_list_witness :
    (scanRun c5WitnessInput).emissions.head? =
      some (Emission.songsLoaded (initialSongList c5WitnessInput.urlPath (3 : Int))) ∧
    (initialSongList c5WitnessInput.urlPath (3 : Int)).length = 3 ∧
    ((initialSongList c5WitnessInput.urlPath (3 : Int)).getD 1 defaultSong).track = (1 : Int) + 1 ∧
    ((initialSongList c5WitnessInput.urlPath (3 : Int)).getD 1 defaultSong).title =
      "Track " ++ toString (1 + 1) ∧
    ((initialSongList c5WitnessInput.urlPath (3 : Int)).getD 1 defaultSong).length_nanosec = 0 :=
  c5_initial_track_list c5WitnessInput 3 1 (by decide) rfl rfl rfl rfl (by decide)

/-- C2 (amended): a tag event whose field set lacks a track-number field
is failed gracefully: ParseSongTags returns the logged-failure outcome
without touching any song, the loop step mutates no track list and no
flag, and the event loop continues (the step is not a crash).  Tag events
whose track number is 0 or exceeds the list length instead trip a
Q_ASSERT (see `c2_zero_track_number_asserts`). -/
theorem c2_missing_track_number_graceful (cfg : ScanCfg) (st : LoopState)
    (tags : GstTagList) (pos : Int) (h : tags.track_number = none) :
    parseSongTags cfg.urlPath st.taggedSongs tags = ParseOutcome.noTrackNumber ∧
    ∃ st2, processMessage cfg st (GstMessage.tag tags pos) = StepResult.step st2 [] ∧
      st2.taggedSongs = st.taggedSongs ∧ st2.initialSongs = st.initialSongs ∧
      st2.loadedCdTags = st.loadedCdTags := by
  have hp : parseSongTags cfg.urlPath st.taggedSongs tags = ParseOutcome.noTrackNumber := by
    unfold parseSongTags
    rw [h]
  refine ⟨hp, ?_⟩
  refine ⟨advanceTrack cfg
    { st with discid := if st.discid = "" then
        (match tags.musicbrainz_discid with | some s => s | none => st.discid)
      else st.discid } pos, ?_, ?_, ?_, ?_⟩
  · simp only [processMessage, hp]
  · rw [advanceTrack_taggedSongs]
  · rw [advanceTrack_initialSongs]
  · rw [advanceTrack_loadedCdTags]

/-- Witness for C2's amended theorem at a concrete state and tag event
with no track-number field. -/
theorem c2_missing_track_number_graceful_witness :
    parseSongTags (ScanCfg.mk none 1).urlPath
        (LoopState.mk true true [] [] "" false).taggedSongs
        ⟨none, some ("Al"), none, none, none, none, none, none⟩ =
      ParseOutcome.noTrackNumber ∧
    ∃ st2, processMessage ⟨none, 1⟩ ⟨true, true, [], [], "", false⟩
        (GstMessage.tag ⟨none, some ("Al"), none, none, none, none, none, none⟩ 0) =
        StepResult.step st2 [] ∧
      st2.taggedSongs = (LoopState.mk true true [] [] "" false).taggedSongs ∧
      st2.initialSongs = (LoopState.mk true true [] [] "" false).initialSongs ∧
      st2.loadedCdTags = (LoopState.mk true true [] [] "" false).loadedCdTags :=
  c2_missing_track_number_graceful ⟨none, 1⟩ ⟨true, true, [], [], "", false⟩
    ⟨none, some ("Al"), none, none, none, none, none, none⟩ 0 rfl

theorem scanRun_discid_origin (inp : ScanInput) (h : (scanRun inp).discid ≠ "") :
    ∃ tags pos, GstMessage.tag tags pos ∈ inp.messages ∧
      tags.musicbrainz_discid = some (scanRun inp).discid := by
  unfold scanRun at h ⊢
  by_cases hc : inp.mayLoadTrueChecks = 0 ∨ inp.elementOk = false ∨
      inp.stateOk = false ∨ inp.trackCountOk = false
  · rw [if_pos hc] at h
    exact absurd rfl h
  · rw [if_neg hc] at h ⊢
    dsimp only at h ⊢
    rcases scanLoop_discid_origin ⟨inp.urlPath, inp.numTracks⟩
        (inp.mayLoadTrueChecks - 1)
        ⟨true, true, initialSongList inp.urlPath inp.numTracks,
          initialSongList inp.urlPath inp.numTracks, "", inp.loadedCdTagsInit⟩
        inp.messages with hl | hr
    · exact absurd hl h
    · exact hr

/-- C7 (amended): empty-valued disc-identifier fields do not claim the
slot.  The identifier is stable once non-empty (every further message of
the scan leaves it unchanged), and whenever the scan ends with a
non-empty identifier, that exact value was carried by the
disc-identifier field of some tag event of the scan; equivalently, the
first tag event whose disc-identifier field is non-empty wins. -/
theorem c7_first_nonempty_discid_wins :
    (∀ (cfg : ScanCfg) (b : Nat) (st : LoopState) (msgs : List GstMessage),
        st.discid ≠ "" → (scanLoop cfg b st msgs).state.discid = st.discid) ∧
    (∀ inp : ScanInput, (scanRun inp).discid ≠ "" →
        ∃ tags pos, GstMessage.tag tags pos ∈ inp.messages ∧
          tags.musicbrainz_discid = some (scanRun inp).discid) :=
  ⟨fun cfg b st msgs h => scanLoop_discid_stable cfg b st msgs h,
   fun inp h => scanRun_discid_origin inp h⟩

/-- Witness for C7's amended theorem: stability on a concrete loop state
with a non-empty identifier, and origin of the identifier on a concrete
scan. -/
theorem c7_first_nonempty_discid_wins_witness :
    (scanLoop ⟨none, 1⟩ 3 c7StableState
        [GstMessage.tag ⟨some 1, none, none, none, none, none, none, some ("Q")⟩ 0]).state.discid =
      c7StableState.discid ∧
    ∃ tags pos, GstMessage.tag tags pos ∈ c7WitnessInput.messages ∧
      tags.musicbrainz_discid = some (scanRun c7WitnessInput).discid :=
  ⟨c7_first_nonempty_discid_wins.1 ⟨none, 1⟩ 3 c7StableState
      [GstMessage.tag ⟨some 1, none, none, none, none, none, none, some ("Q")⟩ 0] (by decide),
   c7_first_nonempty_discid_wins.2 c7WitnessInput (by decide)⟩

theorem mbSongs_length (urlPath : Option String) (artist album : String) :
    ∀ (rs : List MbResult) (t : Nat),
      (mbSongs urlPath artist album t rs).length = rs.length := by
  intro rs
  induction rs with
  | nil => intro t; rfl
  | cons r rs ih => intro t; simp [mbSongs, ih]

theorem mbSongs_getD (urlPath : Option String) (artist album : String) :
    ∀ (rs : List MbResult) (t i : Nat), i < rs.length →
      (mbSongs urlPath artist album t rs).getD i defaultSong =
        mbSong urlPath artist album (t + i) (rs.getD i ⟨"", 0, 0⟩) := by
  intro rs
  induction rs with
  | nil => intro t i hi; simp at hi
  | cons r rs ih =>
    intro t i hi
    cases i with
    | zero => simp [mbSongs]
    | succ i =>
      have hrec := ih (t + 1) i (by simpa using hi)
      show (mbSongs urlPath artist album (t + 1) rs).getD i defaultSong =
        mbSong urlPath artist album (t + (i + 1)) ((r :: rs).getD (i + 1) ⟨"", 0, 0⟩)
      rw [hrec]
      have harith : t + 1 + i = t + (i + 1) := by omega
      rw [harith]
      rfl

/-- C8: when the MusicBrainz lookup returns a non-empty result list,
AudioCDTagsLoaded emits exactly one SongsMetadataLoaded signal carrying
one song per result; the song at 0-based position i has track number and
id i+1 (so 1..len in result order), the result's title and year, the
given artist and album, and duration duration_msec * kNsecPerMsec.  An
empty result list emits nothing. -/
theorem c8_musicbrainz_results_applied (urlPath : Option String)
    (artist album : String) (results : List MbResult) (i : Nat)
    (hne : results ≠ []) (hi : i < results.length) :
    audioCDTagsLoaded urlPath artist album [] = [] ∧
    audioCDTagsLoaded urlPath artist album results =
      [Emission.songsMetadataLoaded (mbSongs urlPath artist album 1 results)] ∧
    (mbSongs urlPath artist album 1 results).length = results.length ∧
    ((mbSongs urlPath artist album 1 results).getD i defaultSong).track = (i : Int) + 1 ∧
    ((mbSongs urlPath artist album 1 results).getD i defaultSong).id = (i : Int) + 1 ∧
    ((mbSongs urlPath artist album 1 results).getD i defaultSong).title =
      (results.getD i ⟨"", 0, 0⟩).title ∧
    ((mbSongs urlPath artist album 1 results).getD i defaultSong).year =
      (results.getD i ⟨"", 0, 0⟩).year ∧
    ((mbSongs urlPath artist album 1 results).getD i defaultSong).artist = artist ∧
    ((mbSongs urlPath artist album 1 results).getD i defaultSong).album = album ∧
    ((mbSongs urlPath artist album 1 results).getD i defaultSong).length_nanosec =
      (results.getD i ⟨"", 0, 0⟩).duration_msec * kNsecPerMsec := by
  have hg := mbSongs_getD urlPath artist album results 1 i hi
  refine ⟨rfl, ?_, mbSongs_length _ _ _ _ _, ?_, ?_, ?_, ?_, ?_, ?_, ?_⟩
  · unfold audioCDTagsLoaded
    rw [if_neg hne]
  · rw [hg]
    show ((1 + i : Nat) : Int) = (i : Int) + 1
    push_cast
    ring
  · rw [hg]
    show ((1 + i : Nat) : Int) = (i : Int) + 1
    push_cast
    ring
  · rw [hg]; rfl
  · rw [hg]; rfl
  · rw [hg]; rfl
  · rw [hg]; rfl
  · rw [hg]; rfl

/-- Witness for C8 on a concrete two-element result list, checking
position 1. -/
theorem c8_musicbrainz_results_applied_witness :
    audioCDTagsLoaded (some ("d")) "ar" "al" [] = [] ∧
    audioCDTagsLoaded (some ("d")) "ar" "al" [⟨"a", 5, 1999⟩, ⟨"b", 6, 2000⟩] =
      [Emission.songsMetadataLoaded
        (mbSongs (some ("d")) "ar" "al" 1 [⟨"a", 5, 1999⟩, ⟨"b", 6, 2000⟩])] ∧
    (mbSongs (some ("d")) "ar" "al" 1 [⟨"a", 5, 1999⟩, ⟨"b", 6, 2000⟩]).length =
      ([⟨"a", 5, 1999⟩, ⟨"b", 6, 2000⟩] : List MbResult).length ∧
    ((mbSongs (some ("d")) "ar" "al" 1 [⟨"a", 5, 1999⟩, ⟨"b", 6, 2000⟩]).getD 1
        defaultSong).track = (1 : Int) + 1 ∧
    ((mbSongs (some ("d")) "ar" "al" 1 [⟨"a", 5, 1999⟩, ⟨"b", 6, 2000⟩]).getD 1
        defaultSong).id = (1 : Int) + 1 ∧
    ((mbSongs (some ("d")) "ar" "al" 1 [⟨"a", 5, 1999⟩, ⟨"b", 6, 2000⟩]).getD 1
        defaultSong).title =
      (([⟨"a", 5, 1999⟩, ⟨"b", 6, 2000⟩] : List MbResult).getD 1 ⟨"", 0, 0⟩).title ∧
    ((mbSongs (some ("d")) "ar" "al" 1 [⟨"a", 5, 1999⟩, ⟨"b", 6, 2000⟩]).getD 1
        defaultSong).year =
      (([⟨"a", 5, 1999⟩, ⟨"b", 6, 2000⟩] : List MbResult).getD 1 ⟨"", 0, 0⟩).year ∧
    ((mbSongs (some ("d")) "ar" "al" 1 [⟨"a", 5, 1999⟩, ⟨"b", 6, 2000⟩]).getD 1
        defaultSong).artist = "ar" ∧
    ((mbSongs (some ("d")) "ar" "al" 1 [⟨"a", 5, 1999⟩, ⟨"b", 6, 2000⟩]).getD 1
        defaultSong).album = "al" ∧
    ((mbSongs (some ("d")) "ar" "al" 1 [⟨"a", 5, 1999⟩, ⟨"b", 6, 2000⟩]).getD 1
        defaultSong).length_nanosec =
      (([⟨"a", 5, 1999⟩, ⟨"b", 6, 2000⟩] : List MbResult).getD 1
        ⟨"", 0, 0⟩).duration_msec * kNsecPerMsec :=
  c8_musicbrainz_results_applied (some ("d")) "ar" "al"
    [⟨"a", 5, 1999⟩, ⟨"b", 6, 2000⟩] 1 (by decide) (by decide)

theorem dur_not_init_meta (e : Emission) (h : isDurationEmission e = true) :
    isInitialEmission e = false ∧ isMetadataEmission e = false := by
  cases e <;> simp [isDurationEmission, isInitialEmission, isMetadataEmission] at h ⊢

/-- C6: in every scan run, any occurrence of the initial-track-list signal
precedes any occurrence of a duration-enriched or tag-enriched signal, and
any occurrence of a duration-enriched signal precedes any occurrence of a
tag-enriched signal. -/
theorem c6_emission_order (inp : ScanInput) (i j : Nat) (e f : Emission)
    (hi : (scanRun inp).emissions[i]? = some e)
    (hj : (scanRun inp).emissions[j]? = some f) :
    (isInitialEmission e = true →
      isDurationEmission f = true ∨ isMetadataEmission f = true → i < j) ∧
    (isDurationEmission e = true → isMetadataEmission f = true → i < j) := by
  rcases scanRun_shape inp with hsh | ⟨l, le, post, hsh, hle, hpost⟩
  · rw [hsh] at hi
    simp at hi
  · rw [hsh] at hi hj
    constructor
    · intro he hf
      have hi0 : i = 0 := by
        by_contra h0
        obtain ⟨i2, rfl⟩ : ∃ i2, i = i2 + 1 := ⟨i - 1, by omega⟩
        rw [List.getElem?_cons_succ] at hi
        have hmem : e ∈ le ++ post := List.getElem?_mem hi
        rcases List.mem_append.1 hmem with hm | hm
        · rcases dur_not_init_meta e (hle e hm) with ⟨hni, _⟩
          rw [he] at hni
          cases hni
        · have hni := (hpost e hm).2
          rw [he] at hni
          cases hni
      subst hi0
      rcases Nat.eq_zero_or_pos j with hj0 | hjp
      · subst hj0
        rw [List.getElem?_cons_zero] at hj
        have hf2 : f = Emission.songsLoaded l := by
          injection hj with h2
          exact h2.symm
        subst hf2
        rcases hf with hf | hf <;>
          simp [isDurationEmission, isMetadataEmission] at hf
      · exact hjp
    · intro he hf
      have hi1 : ∃ i2, i = i2 + 1 := by
        rcases Nat.eq_zero_or_pos i with h0 | h0
        · subst h0
          rw [List.getElem?_cons_zero] at hi
          have he2 : e = Emission.songsLoaded l := by
            injection hi with h2
            exact h2.symm
          subst he2
          simp [isDurationEmission] at he
        · exact ⟨i - 1, by omega⟩
      obtain ⟨i2, rfl⟩ := hi1
      rw [List.getElem?_cons_succ] at hi
      have hilt : i2 < le.length := by
        by_contra hge
        push_neg at hge
        rw [List.getElem?_append_right hge] at hi
        have hnd := (hpost e (List.getElem?_mem hi)).1
        rw [he] at hnd
        cases hnd
      have hj1 : ∃ j2, j = j2 + 1 := by
        rcases Nat.eq_zero_or_pos j with h0 | h0
        · subst h0
          rw [List.getElem?_cons_zero] at hj
          have hf2 : f = Emission.songsLoaded l := by
            injection hj with h2
            exact h2.symm
          subst hf2
          simp [isMetadataEmission] at hf
        · exact ⟨j - 1, by omega⟩
      obtain ⟨j2, rfl⟩ := hj1
      rw [List.getElem?_cons_succ] at hj
      have hjge : le.length ≤ j2 := by
        by_contra hlt
        push_neg at hlt
        rw [List.getElem?_append_left hlt] at hj
        rcases dur_not_init_meta f (hle f (List.getElem?_mem hj)) with ⟨_, hnm⟩
        rw [hf] at hnm
        cases hnm
      omega

/-- Witness for C6 on a concrete scan emitting all three signal kinds:
the duration-enriched signal sits at index 1, the tag-enriched one at
index 2, and the theorem yields 1 < 2. -/
theorem c6_emission_order_witness :
    (scanRun c6OrderInput).emissions[1]? =
      some (Emission.songsDurationLoaded
        [{ mkInitialSong none 1 with length_nanosec := 100 }]) ∧
    (scanRun c6OrderInput).emissions[2]? =
      some (Emission.songsMetadataLoaded
        [{ mkInitialSong none 1 with title := "T" }]) ∧
    (1 : Nat) < 2 :=
  ⟨by decide, by decide,
    (c6_emission_order c6OrderInput 1 2
      (Emission.songsDurationLoaded [{ mkInitialSong none 1 with length_nanosec := 100 }])
      (Emission.songsMetadataLoaded [{ mkInitialSong none 1 with title := "T" }])
      (by decide) (by decide)).2 rfl rfl⟩

theorem postEmissions_mem_meta (r : LoopResult) (hcr : r.crashed = false)
    (hld : r.state.loadedCdTags = true) :
    Emission.songsMetadataLoaded r.state.taggedSongs ∈ postEmissions r := by
  unfold postEmissions
  simp [hcr, hld]

theorem postEmissions_mem_discid (r : LoopResult) (hcr : r.crashed = false)
    (hdn : r.state.discid ≠ "") :
    Emission.musicBrainzDiscIdLoaded r.state.discid ∈ postEmissions r := by
  unfold postEmissions
  simp [hcr, hdn]

/-- C10: the cancellation flag is honoured at every loop boundary.  If
`may_load_` is already false at the line-135 check, the scan emits
nothing and performs no blocking wait; in general the number of blocking
waits is bounded by the number of loop checks that still observed the
flag as true (the initial check uses one), so once the flag is false no
further wait happens and no further TOC or tag event is processed.
Nevertheless, on any non-crashing run, a tag-enriched list harvested
before the flag was cleared is still emitted after the loop exits, and so
is a non-empty disc identifier. -/
theorem c10_cancellation (inp : ScanInput) :
    (inp.mayLoadTrueChecks = 0 →
      (scanRun inp).emissions = [] ∧ (scanRun inp).pops = 0) ∧
    (scanRun inp).pops ≤ inp.mayLoadTrueChecks - 1 ∧
    ((scanRun inp).crashed = false →
      ((scanRun inp).loadedCdTags = true →
        Emission.songsMetadataLoaded (scanRun inp).taggedSongs ∈
          (scanRun inp).emissions) ∧
      ((scanRun inp).discid ≠ "" →
        Emission.musicBrainzDiscIdLoaded (scanRun inp).discid ∈
          (scanRun inp).emissions)) := by
  by_cases hc : inp.mayLoadTrueChecks = 0 ∨ inp.elementOk = false ∨
      inp.stateOk = false ∨ inp.trackCountOk = false
  · have hrun : scanRun inp = ⟨[], 0, false, "", [], false⟩ := by
      unfold scanRun
      rw [if_pos hc]
    rw [hrun]
    exact ⟨fun _ => ⟨rfl, rfl⟩, Nat.zero_le _,
      fun _ => ⟨fun h => Bool.noConfusion h, fun h => absurd rfl h⟩⟩
  · push_neg at hc
    unfold scanRun
    rw [if_neg (by simp [hc.1, hc.2.1, hc.2.2.1, hc.2.2.2])]
    dsimp only
    refine ⟨fun h0 => absurd h0 hc.1, scanLoop_pops_le _ _ _ _,
      fun hcr => ⟨fun hld => ?_, fun hdn => ?_⟩⟩
    · exact List.mem_cons_of_mem _
        (List.mem_append_right _ (postEmissions_mem_meta _ hcr hld))
    · exact List.mem_cons_of_mem _
        (List.mem_append_right _ (postEmissions_mem_discid _ hcr hdn))

/-- Witness for C10: the flag is observed true only at the initial check
and the first loop check, so the single tag message is processed and then
the loop exits on the cleared flag; the harvested metadata is still
emitted, and the wait count is within the bound. -/
theorem c10_cancellation_witness :
    Emission.songsMetadataLoaded (scanRun c10WitnessInput).taggedSongs ∈
      (scanRun c10WitnessInput).emissions ∧
    (scanRun c10WitnessInput).pops ≤ c10WitnessInput.mayLoadTrueChecks - 1 :=
  ⟨((c10_cancellation c10WitnessInput).2.2 rfl).1 rfl,
    (c10_cancellation c10WitnessInput).2.1⟩
